import Mathlib

/-!
Verification of `app/server/views.py` (doccano fork): Django views, REST
endpoints and permission checks of a text-annotation web app. Pure parts of
each handler are embedded as Lean functions; ORM tables appear as explicit
lists, and an exception escaping a handler appears as an `Option`/error
result. Names follow the source where Lean allows it (the model classes
named `*Annotation` in the source are shortened to `*Annot` here).
-/

set_option autoImplicit false

namespace Doccano

/-- The three project type tags (`Project.DOCUMENT_CLASSIFICATION`,
`Project.SEQUENCE_LABELING`, `Project.Seq2seq`). -/
inductive ProjectType where
  | DOCUMENT_CLASSIFICATION
  | SEQUENCE_LABELING
  | Seq2seq
deriving DecidableEq

/-- A user row: primary key, username, and the two flags the permission
classes read (`is_staff` for `IsAdminUser`, `is_authenticated` for
`IsAuthenticated`). -/
structure User where
  id : Nat
  username : String
  is_staff : Bool
  is_authenticated : Bool
deriving DecidableEq

/-- A label row: primary key, text, owning project (`Label` model). -/
structure Label where
  id : Nat
  text : String
  project : Nat
deriving DecidableEq

/-- A project row: primary key, name, type tag and member list
(`project.users.all()`). -/
structure Project where
  id : Nat
  name : String
  project_type : ProjectType
  users : List User
deriving DecidableEq

/-- A saved document row: primary key, text, owning project. -/
structure Doc where
  id : Nat
  text : String
  project : Nat
deriving DecidableEq

/-- A document created by the CSV import, before the database assigns a
primary key: `Document(text=text, project=project)`. -/
structure NewDoc where
  text : String
  project : Nat
deriving DecidableEq

/- ------------------------------------------------------------------ -/
/- CSV bulk import: DatasetUpload.post                                 -/
/- ------------------------------------------------------------------ -/

/-- The two redirects `DatasetUpload.post` can answer with:
`reverse('dataset', ...)` on success and `reverse('dataset-upload', ...)`
from the bare `except:` on failure. -/
inductive UploadRedirect where
  | dataset (project_id : Nat)
  | datasetUpload (project_id : Nat)
deriving DecidableEq

/-- The `for line in reader:` loop of `DatasetUpload.post`: each row is a
list of cells ([`csv.reader`] yields `[]` for a blank line); `text = line[0]`
raises `IndexError` on an empty row, which aborts the loop after the rows
before it were already saved. Returns the documents created, in order, and
whether the loop ran to completion. -/
def importRows (project : Nat) : List (List String) → List NewDoc × Bool
  | [] => ([], true)
  | [] :: _ => ([], false)
  | (t :: _) :: rest =>
    let r := importRows project rest
    (⟨t, project⟩ :: r.1, r.2)

/-- `DatasetUpload.post` (source lines 97-108): run the import loop inside
`try:`; on completion redirect to the dataset page, on any exception the
bare `except:` discards the error and redirects back to the upload form.
Returns the documents that remain saved together with the redirect. -/
def datasetUploadPost (project_id : Nat) (rows : List (List String)) :
    List NewDoc × UploadRedirect :=
  let r := importRows project_id rows
  (r.1, if r.2 then UploadRedirect.dataset project_id
        else UploadRedirect.datasetUpload project_id)

theorem importRows_all_nonempty (pid : Nat) :
    ∀ rows : List (List String), (∀ r ∈ rows, r ≠ []) →
      importRows pid rows =
        (rows.map (fun r => ⟨r.headD "", pid⟩), true)
  | [], _ => rfl
  | [] :: _, h => absurd rfl (h [] (List.mem_cons_self _ _))
  | (t :: c) :: rest, h => by
    have ih := importRows_all_nonempty pid rest
      (fun r hr => h r (List.mem_cons_of_mem _ hr))
    simp [importRows, ih]

theorem importRows_ok_iff (pid : Nat) :
    ∀ rows : List (List String),
      (importRows pid rows).2 = true ↔ ∀ r ∈ rows, r ≠ []
  | [] => by simp [importRows]
  | [] :: rest => by simp [importRows]
  | (t :: c) :: rest => by
    have ih := importRows_ok_iff pid rest
    simp [importRows, ih]

/-- Claim C1, counterexample: a CSV consisting of one blank line has N = 1
rows (Python's `csv.reader` yields the empty record `[]` for it), but
the importer creates 0 documents, because `line[0]` raises `IndexError`
and the handler's catch-all aborts the loop. -/
theorem csv_upload_empty_row_refutes_row_count :
    ¬ ((datasetUploadPost 1 ([[]] : List (List String))).1.length = 1) := by
  decide

/-- Claim C1, amended: for every uploaded CSV all of whose rows are
non-empty, with N rows, the import creates exactly N documents in the
target project and the i-th document's text is row i's column 0. -/
theorem csv_upload_nonempty_rows_creates_all (pid : Nat)
    (rows : List (List String)) (h : ∀ r ∈ rows, r ≠ []) :
    (datasetUploadPost pid rows).1.length = rows.length ∧
    (datasetUploadPost pid rows).1.map NewDoc.text =
      rows.map (fun r => r.headD "") ∧
    ∀ d ∈ (datasetUploadPost pid rows).1, d.project = pid := by
  have hrun := importRows_all_nonempty pid rows h
  refine ⟨?_, ?_, ?_⟩
  · simp [datasetUploadPost, hrun]
  · simp [datasetUploadPost, hrun]
  · intro d hd
    simp [datasetUploadPost, hrun] at hd
    obtain ⟨r, _, rfl⟩ := hd
    rfl

theorem csv_upload_nonempty_rows_creates_all_witness :
    (∀ r ∈ ([["a"], ["b", "c"]] : List (List String)), r ≠ []) ∧
    ((datasetUploadPost 7 [["a"], ["b", "c"]]).1.length = 2 ∧
     (datasetUploadPost 7 [["a"], ["b", "c"]]).1.map NewDoc.text =
       [["a"], ["b", "c"]].map (fun r => r.headD "") ∧
     ∀ d ∈ (datasetUploadPost 7 [["a"], ["b", "c"]]).1, d.project = 7) := by
  refine ⟨by decide, ?_⟩
  have h := csv_upload_nonempty_rows_creates_all 7 [["a"], ["b", "c"]]
    (by decide)
  exact ⟨h.1, h.2.1, h.2.2⟩

/-- Claim C5: the import handler redirects back to the upload form exactly
when the import fails (here: some row is empty, so `line[0]` raises), and
redirects to the project's dataset page exactly when it succeeds. -/
theorem csv_upload_redirect_on_failure_and_success (pid : Nat)
    (rows : List (List String)) :
    ((datasetUploadPost pid rows).2 = UploadRedirect.datasetUpload pid ↔
       ∃ r ∈ rows, r = []) ∧
    ((datasetUploadPost pid rows).2 = UploadRedirect.dataset pid ↔
       ∀ r ∈ rows, r ≠ []) := by
  have hok := importRows_ok_iff pid rows
  constructor
  · constructor
    · intro hred
      by_contra hno
      push_neg at hno
      have : (importRows pid rows).2 = true := hok.mpr hno
      simp [datasetUploadPost, this] at hred
    · intro ⟨r, hr, hre⟩
      have : ¬ (importRows pid rows).2 = true := by
        intro hT
        exact (hok.mp hT r hr) hre
      simp at this
      simp [datasetUploadPost, this]
  · constructor
    · intro hred
      by_cases hT : (importRows pid rows).2 = true
      · exact hok.mp hT
      · simp at hT
        simp [datasetUploadPost, hT] at hred
    · intro hall
      have := hok.mpr hall
      simp [datasetUploadPost, this]

theorem csv_upload_redirect_witness :
    (((datasetUploadPost 3 [["x"], []]).2 = UploadRedirect.datasetUpload 3 ↔
        ∃ r ∈ ([["x"], []] : List (List String)), r = []) ∧
     ((datasetUploadPost 3 [["x"], []]).2 = UploadRedirect.dataset 3 ↔
        ∀ r ∈ ([["x"], []] : List (List String)), r ≠ [])) :=
  csv_upload_redirect_on_failure_and_success 3 [["x"], []]

/-- Claim C10: the CSV import is not atomic. If the first k rows are
non-empty and row k+1 is empty (so `line[0]` raises there), exactly the k
documents from the rows before the failure remain created — no rollback —
and the handler redirects back to the upload form. -/
theorem csv_upload_partial_import_before_failure (pid : Nat)
    (good rest : List (List String)) (h : ∀ r ∈ good, r ≠ []) :
    (datasetUploadPost pid (good ++ [] :: rest)).1 =
      good.map (fun r => ⟨r.headD "", pid⟩) ∧
    (datasetUploadPost pid (good ++ [] :: rest)).2 =
      UploadRedirect.datasetUpload pid := by
  have key : ∀ g : List (List String), (∀ r ∈ g, r ≠ []) →
      importRows pid (g ++ [] :: rest) =
        (g.map (fun r => ⟨r.headD "", pid⟩), false) := by
    intro g
    induction g with
    | nil => intro _; rfl
    | cons r g ih =>
      intro hg
      match r with
      | [] => exact absurd rfl (hg [] (List.mem_cons_self _ _))
      | t :: c =>
        have := ih (fun x hx => hg x (List.mem_cons_of_mem _ hx))
        simp [importRows, this]
  have hk := key good h
  constructor
  · simp [datasetUploadPost, hk]
  · simp [datasetUploadPost, hk]

theorem csv_upload_partial_import_witness :
    (∀ r ∈ ([["a"], ["b"]] : List (List String)), r ≠ []) ∧
    ((datasetUploadPost 5 ([["a"], ["b"]] ++ [] :: [["z"]])).1 =
       ([["a"], ["b"]] : List (List String)).map (fun r => ⟨r.headD "", 5⟩) ∧
     (datasetUploadPost 5 ([["a"], ["b"]] ++ [] :: [["z"]])).2 =
       UploadRedirect.datasetUpload 5) := by
  refine ⟨by decide, ?_⟩
  exact csv_upload_partial_import_before_failure 5 [["a"], ["b"]] [["z"]]
    (by decide)

/- ------------------------------------------------------------------ -/
/- Permission classes                                                  -/
/- ------------------------------------------------------------------ -/

/-- The HTTP methods relevant to the REST framework's permission checks. -/
inductive HttpMethod where
  | GET
  | HEAD
  | OPTIONS
  | POST
  | PUT
  | PATCH
  | DELETE
deriving DecidableEq

/-- `rest_framework.permissions.SAFE_METHODS = ('GET', 'HEAD', 'OPTIONS')`. -/
def SAFE_METHODS : List HttpMethod :=
  [HttpMethod.GET, HttpMethod.HEAD, HttpMethod.OPTIONS]

/-- `rest_framework.permissions.IsAuthenticated`: the request's user is
authenticated. -/
def IsAuthenticated.has_permission (user : User) : Bool :=
  user.is_authenticated

/-- `rest_framework.permissions.IsAdminUser`: the request's user has the
staff flag. -/
def IsAdminUser.has_permission (user : User) : Bool :=
  user.is_staff

/-- `IsProjectUser.has_permission` (source lines 128-135): fetch the project
named by the URL and grant access exactly when
`user in project.users.all()`. -/
def IsProjectUser.has_permission (user : User) (project : Project) : Bool :=
  decide (user ∈ project.users)

/-- `IsAdminUserAndWriteOnly.has_permission` (source lines 138-144): grant
every safe-method request; otherwise defer to `IsAdminUser`. -/
def IsAdminUserAndWriteOnly.has_permission (method : HttpMethod)
    (user : User) : Bool :=
  if method ∈ SAFE_METHODS then true
  else IsAdminUser.has_permission user

/-- The framework's permission pipeline for `ProjectLabelsAPI`
(`permission_classes = (IsAuthenticated, IsProjectUser,
IsAdminUserAndWriteOnly)`, source line 186): every class must grant. -/
def ProjectLabelsAPI.permitted (method : HttpMethod) (user : User)
    (project : Project) : Bool :=
  IsAuthenticated.has_permission user &&
  IsProjectUser.has_permission user project &&
  IsAdminUserAndWriteOnly.has_permission method user

/-- Claim C6: `IsProjectUser` grants access iff the requesting user is a
member of the project named in the request; consequently a non-member is
denied access to the project's labels endpoint for any method, read
included. -/
theorem isProjectUser_membership_and_labels_denied (u : User) (p : Project)
    (m : HttpMethod) :
    (IsProjectUser.has_permission u p = true ↔ u ∈ p.users) ∧
    (u ∉ p.users → ProjectLabelsAPI.permitted m u p = false) := by
  constructor
  · simp [IsProjectUser.has_permission]
  · intro hnm
    have : IsProjectUser.has_permission u p = false := by
      simp [IsProjectUser.has_permission, hnm]
    simp [ProjectLabelsAPI.permitted, this]

theorem isProjectUser_witness :
    ({ id := 1, username := "eve", is_staff := false,
       is_authenticated := true : User } ∉
        ({ id := 9, name := "p", project_type := ProjectType.Seq2seq,
           users := [] : Project }).users) ∧
    ProjectLabelsAPI.permitted HttpMethod.GET
      { id := 1, username := "eve", is_staff := false,
        is_authenticated := true }
      { id := 9, name := "p", project_type := ProjectType.Seq2seq,
        users := [] } = false :=
  ⟨by decide,
   (isProjectUser_membership_and_labels_denied
      { id := 1, username := "eve", is_staff := false,
        is_authenticated := true }
      { id := 9, name := "p", project_type := ProjectType.Seq2seq,
        users := [] }
      HttpMethod.GET).2 (by decide)⟩

/-- Claim C7: `IsAdminUserAndWriteOnly` grants access iff the method is
safe (read-only) or the user is an admin; in particular every safe-method
request passes regardless of the user. -/
theorem adminOrReadOnly_safe_or_staff (m : HttpMethod) (u : User) :
    (IsAdminUserAndWriteOnly.has_permission m u = true ↔
       (m ∈ SAFE_METHODS ∨ u.is_staff = true)) ∧
    (m ∈ SAFE_METHODS → IsAdminUserAndWriteOnly.has_permission m u = true) := by
  constructor
  · by_cases hs : m ∈ SAFE_METHODS
    · simp [IsAdminUserAndWriteOnly.has_permission, hs]
    · simp [IsAdminUserAndWriteOnly.has_permission, hs,
        IsAdminUser.has_permission]
  · intro hs
    simp [IsAdminUserAndWriteOnly.has_permission, hs]

theorem adminOrReadOnly_witness :
    HttpMethod.GET ∈ SAFE_METHODS ∧
    IsAdminUserAndWriteOnly.has_permission HttpMethod.GET
      { id := 2, username := "bob", is_staff := false,
        is_authenticated := true } = true :=
  ⟨by decide,
   (adminOrReadOnly_safe_or_staff HttpMethod.GET
      { id := 2, username := "bob", is_staff := false,
        is_authenticated := true }).2 (by decide)⟩

/- ------------------------------------------------------------------ -/
/- Annotation model and the annotation endpoints                       -/
/- ------------------------------------------------------------------ -/

/-- Modelled from the spec: the three Annotation variants of the excluded
model layer — DocumentAnnotation (document+label), SequenceAnnotation
(document+label+start/end offset), Seq2seqAnnotation (document+free text) —
each recording the authoring user and a manual/automatic flag. The first
field is the database primary key; the label foreign key is carried as the
`Label` row it points at. Constructor names drop the `-ation` suffix of the
source class names. -/
inductive Annot where
  | document (id : Nat) (doc : Nat) (label : Label) (manual : Bool)
      (user : User)
  | sequence (id : Nat) (doc : Nat) (label : Label) (manual : Bool)
      (user : User) (start_offset : Nat) (end_offset : Nat)
  | seq2seq (id : Nat) (doc : Nat) (text : String) (manual : Bool)
      (user : User)
deriving DecidableEq

/-- The primary key of an annotation row. -/
def Annot.id : Annot → Nat
  | .document i _ _ _ _ => i
  | .sequence i _ _ _ _ _ _ => i
  | .seq2seq i _ _ _ _ => i

/-- `annotation.user`: the authoring user. -/
def Annot.user : Annot → User
  | .document _ _ _ _ u => u
  | .sequence _ _ _ _ u _ _ => u
  | .seq2seq _ _ _ _ u => u

/-- `annotation.manual`: the manual/automatic flag. -/
def Annot.manual : Annot → Bool
  | .document _ _ _ m _ => m
  | .sequence _ _ _ m _ _ _ => m
  | .seq2seq _ _ _ m _ => m

/-- `a.label.text`: the text of the annotation's label. A Seq2seq
annotation has no label attribute (spec section 3), so the access raises
`AttributeError` there — modelled as `none`. -/
def Annot.labelText : Annot → Option String
  | .document _ _ l _ _ => some l.text
  | .sequence _ _ l _ _ _ _ => some l.text
  | .seq2seq _ _ _ _ _ => none

/-- Whether the row lives in the `Seq2seqAnnotation` table. -/
def Annot.isSeq2seq : Annot → Bool
  | .seq2seq _ _ _ _ _ => true
  | _ => false

/-- `annotation.text = text`: overwrite the free text of a Seq2seq
annotation (the source only runs this on Seq2seq rows). -/
def Annot.setText : Annot → String → Annot
  | .seq2seq i d _ m u, t => .seq2seq i d t m u
  | a, _ => a

/-- The body of an annotation request: the keys `AnnotationsAPI.post` and
`AnnotationAPI.put` read from `request.data` (`label_id`, `start_offset`,
`end_offset`, `text`, `id`), gathered in one record. -/
structure AnnotRequestData where
  id : Nat
  label_id : Nat
  start_offset : Nat
  end_offset : Nat
  text : String
deriving DecidableEq

/-- `get_object_or_404(Label, pk=...)` over the label table. -/
def getLabelById (labels : List Label) (pk : Nat) : Option Label :=
  labels.find? (fun l => l.id == pk)

/-- Outcome of an annotation view handler: a serialized annotation, an
HTTP 404 from `get_object_or_404` / `Model.objects.get`, or the
`NameError`/`UnboundLocalError` raised when no branch bound `annotation`. -/
inductive AnnotResponse where
  | ok (a : Annot)
  | notFound
  | nameError
deriving DecidableEq

/-- `Project.is_type_of` — modelled from the spec: the project type tag
selects one of the three supported types. -/
def Project.is_type_of (p : Project) (t : ProjectType) : Bool :=
  p.project_type == t

/-- `AnnotationsAPI.post` (source lines 290-313): branch on the project's
type; document classification and sequence labeling fetch the label named
by `request.data['label_id']` (404 when absent) and build the matching
annotation subtype, seq2seq takes `request.data['text']`; every branch sets
`manual=True` and `user=self.request.user`. `newId` is the primary key the
database assigns on `annotation.save()`. -/
def AnnotsAPI_post (project : Project) (doc : Doc) (user : User)
    (labels : List Label) (data : AnnotRequestData) (newId : Nat) :
    AnnotResponse :=
  if project.is_type_of ProjectType.DOCUMENT_CLASSIFICATION then
    match getLabelById labels data.label_id with
    | none => AnnotResponse.notFound
    | some label =>
      AnnotResponse.ok (Annot.document newId doc.id label true user)
  else if project.is_type_of ProjectType.SEQUENCE_LABELING then
    match getLabelById labels data.label_id with
    | none => AnnotResponse.notFound
    | some label =>
      AnnotResponse.ok (Annot.sequence newId doc.id label true user
        data.start_offset data.end_offset)
  else if project.is_type_of ProjectType.Seq2seq then
    AnnotResponse.ok (Annot.seq2seq newId doc.id data.text true user)
  else
    AnnotResponse.nameError

/-- Claim C2: whenever `AnnotationsAPI.post` answers with a created
annotation, its subtype is the one the project's type selects — a document
annotation for classification, a sequence annotation carrying the request's
offsets for sequence labeling, a seq2seq annotation carrying the request's
text — and it records the requesting user as author with `manual = true`. -/
theorem post_creates_subtype_by_project_type (project : Project) (doc : Doc)
    (u : User) (labels : List Label) (data : AnnotRequestData) (newId : Nat)
    (a : Annot)
    (h : AnnotsAPI_post project doc u labels data newId =
           AnnotResponse.ok a) :
    a.user = u ∧ a.manual = true ∧
    (project.project_type = ProjectType.DOCUMENT_CLASSIFICATION →
       ∃ l, getLabelById labels data.label_id = some l ∧
         a = Annot.document newId doc.id l true u) ∧
    (project.project_type = ProjectType.SEQUENCE_LABELING →
       ∃ l, getLabelById labels data.label_id = some l ∧
         a = Annot.sequence newId doc.id l true u data.start_offset
               data.end_offset) ∧
    (project.project_type = ProjectType.Seq2seq →
       a = Annot.seq2seq newId doc.id data.text true u) := by
  cases hpt : project.project_type with
  | DOCUMENT_CLASSIFICATION =>
    cases hl : getLabelById labels data.label_id with
    | none => simp [AnnotsAPI_post, Project.is_type_of, hpt, hl] at h
    | some l =>
      simp [AnnotsAPI_post, Project.is_type_of, hpt, hl] at h
      subst h
      exact ⟨rfl, rfl, fun _ => ⟨l, rfl, rfl⟩, fun hc => by simp at hc,
        fun hc => by simp at hc⟩
  | SEQUENCE_LABELING =>
    cases hl : getLabelById labels data.label_id with
    | none => simp [AnnotsAPI_post, Project.is_type_of, hpt, hl] at h
    | some l =>
      simp [AnnotsAPI_post, Project.is_type_of, hpt, hl] at h
      subst h
      exact ⟨rfl, rfl, fun hc => by simp at hc, fun _ => ⟨l, rfl, rfl⟩,
        fun hc => by simp at hc⟩
  | Seq2seq =>
    simp [AnnotsAPI_post, Project.is_type_of, hpt] at h
    subst h
    exact ⟨rfl, rfl, fun hc => by simp at hc, fun hc => by simp at hc,
      fun _ => rfl⟩

/-- A fixed user, project, document, label and request body used by the
concrete witnesses below. -/
def aliceW : User :=
  { id := 1, username := "alice", is_staff := false,
    is_authenticated := true }

def projW : Project :=
  { id := 4, name := "ner", project_type := ProjectType.SEQUENCE_LABELING,
    users := [aliceW] }

def docW : Doc := { id := 11, text := "some text", project := 4 }

def labelW : Label := { id := 21, text := "PER", project := 4 }

def dataW : AnnotRequestData :=
  { id := 0, label_id := 21, start_offset := 2, end_offset := 5,
    text := "" }

theorem post_creates_subtype_witness :
    (AnnotsAPI_post projW docW aliceW [labelW] dataW 31 =
       AnnotResponse.ok
         (Annot.sequence 31 11 labelW true aliceW 2 5)) ∧
    ((Annot.sequence 31 11 labelW true aliceW 2 5).user = aliceW ∧
     (Annot.sequence 31 11 labelW true aliceW 2 5).manual = true ∧
     (projW.project_type = ProjectType.DOCUMENT_CLASSIFICATION →
        ∃ l, getLabelById [labelW] dataW.label_id = some l ∧
          Annot.sequence 31 11 labelW true aliceW 2 5 =
            Annot.document 31 docW.id l true aliceW) ∧
     (projW.project_type = ProjectType.SEQUENCE_LABELING →
        ∃ l, getLabelById [labelW] dataW.label_id = some l ∧
          Annot.sequence 31 11 labelW true aliceW 2 5 =
            Annot.sequence 31 docW.id l true aliceW dataW.start_offset
              dataW.end_offset) ∧
     (projW.project_type = ProjectType.Seq2seq →
        Annot.sequence 31 11 labelW true aliceW 2 5 =
          Annot.seq2seq 31 docW.id dataW.text true aliceW)) :=
  ⟨by decide,
   post_creates_subtype_by_project_type projW docW aliceW [labelW] dataW 31
     (Annot.sequence 31 11 labelW true aliceW 2 5) (by decide)⟩

/-- `IsOwnAnnotation.has_permission` (source lines 147-157): fetch the
annotation named in the URL from the project's annotation table
(`project.get_annotation_class()` then `Annotation.objects.get(id=...)`,
which raises `DoesNotExist` — `none` — when absent) and grant exactly when
`annotation.user == user`. -/
def IsOwnAnnot.has_permission (user : User) (annots : List Annot)
    (annotation_id : Nat) : Option Bool :=
  match annots.find? (fun a => a.id == annotation_id) with
  | none => none
  | some a => some (a.user == user)

/-- Claim C8: for a request naming an existing annotation, the ownership
check grants access iff the annotation's authoring user equals the
requesting user. -/
theorem isOwnAnnot_grants_iff_author (u : User) (annots : List Annot)
    (aid : Nat) (a : Annot)
    (h : annots.find? (fun x => x.id == aid) = some a) :
    IsOwnAnnot.has_permission u annots aid = some (a.user == u) ∧
    (IsOwnAnnot.has_permission u annots aid = some true ↔ a.user = u) := by
  constructor
  · simp [IsOwnAnnot.has_permission, h]
  · simp [IsOwnAnnot.has_permission, h]

theorem isOwnAnnot_witness :
    ([Annot.seq2seq 41 11 "t" true aliceW].find?
       (fun x => x.id == 41) = some (Annot.seq2seq 41 11 "t" true aliceW)) ∧
    (IsOwnAnnot.has_permission aliceW [Annot.seq2seq 41 11 "t" true aliceW]
       41 = some ((Annot.seq2seq 41 11 "t" true aliceW).user == aliceW) ∧
     (IsOwnAnnot.has_permission aliceW [Annot.seq2seq 41 11 "t" true aliceW]
        41 = some true ↔
        (Annot.seq2seq 41 11 "t" true aliceW).user = aliceW)) :=
  ⟨by decide,
   isOwnAnnot_grants_iff_author aliceW [Annot.seq2seq 41 11 "t" true aliceW]
     41 (Annot.seq2seq 41 11 "t" true aliceW) (by decide)⟩

/-- `get_object_or_404(Seq2seqAnnotation, pk=...)`: look up a row of the
Seq2seqAnnotation table by primary key. -/
def getSeq2seqAnnotById (annots : List Annot) (pk : Nat) : Option Annot :=
  annots.find? (fun a => a.isSeq2seq && a.id == pk)

/-- `AnnotationAPI.put` (source lines 334-345): only the
`project.is_type_of(Project.Seq2seq)` branch binds `annotation` (fetching
the Seq2seqAnnotation named by `request.data['id']` and overwriting its
text); for the other two project types, `annotation.save()` then raises
`UnboundLocalError` — no annotation is updated and no serialized response
is produced. -/
def AnnotAPI_put (project : Project) (annots : List Annot)
    (data : AnnotRequestData) : AnnotResponse :=
  if project.is_type_of ProjectType.Seq2seq then
    match getSeq2seqAnnotById annots data.id with
    | none => AnnotResponse.notFound
    | some a => AnnotResponse.ok (a.setText data.text)
  else
    AnnotResponse.nameError

/-- Claim C9, counterexample: in a document-classification project, a PUT
to `AnnotationAPI` by the annotation's own author does not answer with any
serialized updated annotation — the handler reaches `annotation.save()`
with `annotation` unbound and raises. -/
theorem put_classification_refuted :
    AnnotAPI_put
      { id := 4, name := "cls",
        project_type := ProjectType.DOCUMENT_CLASSIFICATION,
        users := [aliceW] }
      [Annot.document 41 11 labelW true aliceW]
      { id := 41, label_id := 21, start_offset := 0, end_offset := 0,
        text := "x" } = AnnotResponse.nameError := by
  decide

/-- Claim C9, amended: only for a Seq2seq project does the PUT handler
update an annotation — it overwrites the text of the Seq2seqAnnotation
named by `request.data['id']` with the request's text and answers with that
serialized updated annotation (404 when no such annotation exists); for
document classification and sequence labeling projects the handler raises
an unbound-local error instead of answering. -/
theorem put_seq2seq_only_updates_text (project : Project)
    (annots : List Annot) (data : AnnotRequestData) :
    (project.project_type = ProjectType.Seq2seq →
       ∀ a, getSeq2seqAnnotById annots data.id = some a →
         AnnotAPI_put project annots data =
           AnnotResponse.ok (a.setText data.text)) ∧
    (project.project_type = ProjectType.Seq2seq →
       getSeq2seqAnnotById annots data.id = none →
         AnnotAPI_put project annots data = AnnotResponse.notFound) ∧
    (project.project_type ≠ ProjectType.Seq2seq →
       AnnotAPI_put project annots data = AnnotResponse.nameError) := by
  refine ⟨?_, ?_, ?_⟩
  · intro hpt a hfind
    simp [AnnotAPI_put, Project.is_type_of, hpt, hfind]
  · intro hpt hfind
    simp [AnnotAPI_put, Project.is_type_of, hpt, hfind]
  · intro hpt
    have : (project.project_type == ProjectType.Seq2seq) = false := by
      simpa using hpt
    simp [AnnotAPI_put, Project.is_type_of, this]

theorem put_seq2seq_witness :
    (({ id := 4, name := "s2s", project_type := ProjectType.Seq2seq,
        users := [aliceW] : Project }).project_type =
       ProjectType.Seq2seq) ∧
    (getSeq2seqAnnotById [Annot.seq2seq 41 11 "old" true aliceW] 41 =
       some (Annot.seq2seq 41 11 "old" true aliceW)) ∧
    AnnotAPI_put
      { id := 4, name := "s2s", project_type := ProjectType.Seq2seq,
        users := [aliceW] }
      [Annot.seq2seq 41 11 "old" true aliceW]
      { id := 41, label_id := 0, start_offset := 0, end_offset := 0,
        text := "new" } =
      AnnotResponse.ok
        ((Annot.seq2seq 41 11 "old" true aliceW).setText "new") :=
  ⟨by decide, by decide,
   (put_seq2seq_only_updates_text
      { id := 4, name := "s2s", project_type := ProjectType.Seq2seq,
        users := [aliceW] }
      [Annot.seq2seq 41 11 "old" true aliceW]
      { id := 41, label_id := 0, start_offset := 0, end_offset := 0,
        text := "new" }).1 (by decide)
     (Annot.seq2seq 41 11 "old" true aliceW) (by decide)⟩

/- ------------------------------------------------------------------ -/
/- Stats and progress endpoints                                        -/
/- ------------------------------------------------------------------ -/

/-- What `ProjectStatsAPI.get` and `ProjectViewSet.progress` read from a
project: its labels (`p.labels.all()`), its members (`p.users.all()`) and
its documents (`p.documents.all()`), each document represented by the
annotation rows `doc.get_annotations()` yields for it (the accessor itself
lives in the excluded model layer and is modelled from the spec: it returns
the document's annotations of the project's annotation subtype). -/
structure ProjState where
  labels : List Label
  users : List User
  docs : List (List Annot)

/-- The `label` half of the stats response: `{labels, data}`. -/
structure LabelStats where
  labels : List String
  data : List Nat
deriving DecidableEq

/-- The `user` half of the stats response: `{users, data}`. -/
structure UserStats where
  users : List String
  data : List Nat
deriving DecidableEq

/-- The stats response `{label: {labels, data}, user: {users, data}}`. -/
structure StatsResponse where
  label : LabelStats
  user : UserStats
deriving DecidableEq

/-- `collections.Counter` lookup: `Counter(xs)[name]` is the number of
occurrences of `name` in `xs` (0 when absent). -/
def Counter (xs : List String) : String → Nat :=
  fun name => xs.count name

/-- `[a.label.text for a in doc.get_annotations()]`: `none` when some
annotation has no label attribute (`AttributeError`). -/
def labelTexts : List Annot → Option (List String)
  | [] => some []
  | a :: rest =>
    match a.labelText with
    | none => none
    | some t => (labelTexts rest).map (fun ts => t :: ts)

/-- `[[a.label.text for a in doc.get_annotations()] for doc in docs]`. -/
def nestedLabelTexts : List (List Annot) → Option (List (List String))
  | [] => some []
  | d :: rest =>
    match labelTexts d with
    | none => none
    | some ts => (nestedLabelTexts rest).map (fun tss => ts :: tss)

/-- `ProjectStatsAPI.get` (source lines 204-221): collect the label texts
and author usernames of every annotation of every document, count each with
`Counter(chain(*...))`, and answer `{label: {labels, data}, user: {users,
data}}`; `none` when building `nested_labels` raises (an annotation without
a label attribute). -/
def ProjectStatsAPI_get (p : ProjState) : Option StatsResponse :=
  let labels := p.labels.map Label.text
  let users := p.users.map User.username
  match nestedLabelTexts p.docs with
  | none => none
  | some nested_labels =>
    let nested_users :=
      p.docs.map (fun anns => anns.map (fun a => a.user.username))
    let label_data := labels.map (fun name => Counter nested_labels.flatten name)
    let user_data := users.map (fun name => Counter nested_users.flatten name)
    some ⟨⟨labels, label_data⟩, ⟨users, user_data⟩⟩

theorem count_labelTexts (t : String) :
    ∀ (anns : List Annot) (ts : List String), labelTexts anns = some ts →
      ts.count t = anns.countP (fun a => a.labelText == some t)
  | [], ts, h => by
    simp [labelTexts] at h
    subst h
    simp
  | a :: rest, ts, h => by
    cases hl : a.labelText with
    | none => simp [labelTexts, hl] at h
    | some s =>
      simp [labelTexts, hl] at h
      obtain ⟨ts0, h0, rfl⟩ := h
      have ih := count_labelTexts t rest ts0 h0
      by_cases hst : s = t
      · subst hst
        simp [List.count_cons, List.countP_cons, ih, hl]
      · simp [List.count_cons, List.countP_cons, ih, hl, hst]

theorem count_nestedLabelTexts (t : String) :
    ∀ (docs : List (List Annot)) (nls : List (List String)),
      nestedLabelTexts docs = some nls →
      nls.flatten.count t = docs.flatten.countP (fun a => a.labelText == some t)
  | [], nls, h => by
    simp [nestedLabelTexts] at h
    subst h
    simp
  | d :: rest, nls, h => by
    cases hd : labelTexts d with
    | none => simp [nestedLabelTexts, hd] at h
    | some ts =>
      simp [nestedLabelTexts, hd] at h
      obtain ⟨nls0, h0, rfl⟩ := h
      have ih := count_nestedLabelTexts t rest nls0 h0
      have h1 := count_labelTexts t d ts hd
      simp [List.count_append, List.countP_append, ih, h1]

theorem count_map_username (name : String) :
    ∀ anns : List Annot,
      (anns.map (fun a => a.user.username)).count name =
        anns.countP (fun a => a.user.username == name)
  | [] => rfl
  | a :: rest => by
    have ih := count_map_username name rest
    by_cases h : a.user.username = name
    · simp [List.count_cons, List.countP_cons, ih, h]
    · simp [List.count_cons, List.countP_cons, ih, h]

theorem count_join_usernames (name : String) :
    ∀ docs : List (List Annot),
      ((docs.map (fun anns =>
          anns.map (fun a => a.user.username))).flatten).count name =
        docs.flatten.countP (fun a => a.user.username == name)
  | [] => rfl
  | d :: rest => by
    have ih := count_join_usernames name rest
    simp [List.count_append, List.countP_append, ih,
      count_map_username name d]

/-- Claim C3, amended: whenever the stats endpoint answers (which it does
exactly when every annotation of the project carries a label — for a
seq2seq project with annotations it raises instead), the response is
`{label: {labels, data}, user: {users, data}}` where `labels` lists the
project's label texts, `users` lists the member usernames, label `data[i]`
is the number of annotations across all the project's documents whose label
text equals `labels[i]`, and user `data[i]` is the number of annotations
authored by `users[i]`. -/
theorem stats_counts_labels_and_users (p : ProjState) (r : StatsResponse)
    (h : ProjectStatsAPI_get p = some r) :
    r.label.labels = p.labels.map Label.text ∧
    r.user.users = p.users.map User.username ∧
    r.label.data = p.labels.map (fun l =>
      p.docs.flatten.countP (fun a => a.labelText == some l.text)) ∧
    r.user.data = p.users.map (fun u =>
      p.docs.flatten.countP (fun a => a.user.username == u.username)) := by
  obtain ⟨⟨rlabels, rldata⟩, ⟨rusers, rudata⟩⟩ := r
  cases hn : nestedLabelTexts p.docs with
  | none => simp [ProjectStatsAPI_get, hn] at h
  | some nls =>
    simp [ProjectStatsAPI_get, hn] at h
    obtain ⟨⟨h1, h2⟩, h3, h4⟩ := h
    refine ⟨h1.symm, h3.symm, ?_, ?_⟩
    · rw [← h2]
      refine congrArg (fun f => List.map f p.labels) ?_
      funext l
      exact count_nestedLabelTexts l.text p.docs nls hn
    · rw [← h4]
      refine congrArg (fun f => List.map f p.users) ?_
      funext u
      exact count_join_usernames u.username p.docs

/-- Claim C3, counterexample: in a seq2seq project holding one annotation,
`a.label.text` raises `AttributeError` (spec section 3: a Seq2seqAnnotation
carries free text, no label), so the stats endpoint produces no response of
the claimed shape at all. -/
theorem stats_seq2seq_no_response :
    ProjectStatsAPI_get
      { labels := [], users := [aliceW],
        docs := [[Annot.seq2seq 41 11 "t" true aliceW]] } = none := by
  rfl

/-- A concrete classification-style project for the stats witness. -/
def statsGoodW : ProjState :=
  { labels := [labelW], users := [aliceW],
    docs := [[Annot.document 51 11 labelW true aliceW]] }

def rGoodW : StatsResponse :=
  ⟨⟨["PER"], [1]⟩, ⟨["alice"], [1]⟩⟩

theorem stats_counts_witness :
    ProjectStatsAPI_get statsGoodW = some rGoodW ∧
    (rGoodW.label.labels = statsGoodW.labels.map Label.text ∧
     rGoodW.user.users = statsGoodW.users.map User.username ∧
     rGoodW.label.data = statsGoodW.labels.map (fun l =>
       statsGoodW.docs.flatten.countP (fun a => a.labelText == some l.text)) ∧
     rGoodW.user.data = statsGoodW.users.map (fun u =>
       statsGoodW.docs.flatten.countP
         (fun a => a.user.username == u.username))) :=
  ⟨by decide, stats_counts_labels_and_users statsGoodW rGoodW (by decide)⟩

/-- Modelled from the spec: `project.get_documents(is_null=True)` lives in
the excluded model layer; per the spec's progress description it yields the
project's documents that have no annotations yet. -/
def ProjState.get_documents_isNull (p : ProjState) : List (List Annot) :=
  p.docs.filter (fun anns => anns.isEmpty)

/-- `ProjectViewSet.progress` (source lines 172-179): `total` is
`project.documents.count()`, `remaining` the count of
`project.get_documents(is_null=True)`. -/
def ProjectViewSet.progress (p : ProjState) : Nat × Nat :=
  (p.docs.length, (ProjState.get_documents_isNull p).length)

/-- Claim C4: the progress endpoint answers `{total, remaining}` with
`total` the number of the project's documents and `remaining` the number of
its documents that have no annotations yet. -/
theorem progress_total_and_remaining (p : ProjState) :
    (ProjectViewSet.progress p).1 = p.docs.length ∧
    (ProjectViewSet.progress p).2 =
      p.docs.countP (fun anns => decide (anns = [])) := by
  constructor
  · rfl
  · have hfe : (fun anns : List Annot => anns.isEmpty) =
        (fun anns : List Annot => decide (anns = [])) := by
      funext anns
      cases anns <;> simp
    simp [ProjectViewSet.progress, ProjState.get_documents_isNull, hfe,
      List.countP_eq_length_filter]

end Doccano
